import Mathlib

/-!
Shallow embedding of the offline XRPL transaction-signing workflow
(`src/offline_signing.rs` of dkgoutham/ripple-rust-examples).

Network-touching operations (`gather_transaction_params`, `submit_signed_blob`)
are embedded as pure functions of the results of their network queries; the
external collaborators used by `offline_sign_transaction` (wallet derivation,
the cryptographic signing primitive and the canonical encoder, all provided
by the external `xrpl` crate) are passed in as function parameters.  Machine
integers (`u32`, `i32`) are modelled as `Nat`/`Int` with explicit reduction
modulo `2^32` where the Rust semantics wraps.
-/

/-- `TRANSACTION_EXPIRY_LEDGERS` from `offline_signing.rs`: the transaction
expires after 10 ledgers. -/
def TRANSACTION_EXPIRY_LEDGERS : Nat := 10

/-- `MINIMUM_FEE_DROPS` from `offline_signing.rs`: minimum fee for testnet. -/
def MINIMUM_FEE_DROPS : Nat := 12

/-- `2^32`, the number of values of a `u32`. -/
def U32_MOD : Nat := 4294967296

/-- `2^31`, the bound of non-negative `i32` values. -/
def I31_BOUND : Nat := 2147483648

/-- Value of a list of decimal-digit characters, most significant first
(the accumulation performed by Rust's integer parser). -/
def digitsVal (cs : List Char) : Nat :=
  cs.foldl (fun a c => a * 10 + (c.toNat - 48)) 0

/-- Positive branch of Rust's `u32::from_str`: a non-empty run of ASCII
decimal digits whose accumulated value fits in a `u32` (checked arithmetic
fails exactly when the final value is `≥ 2^32`, since the accumulator is
monotone). -/
def parseDigitsPos (cs : List Char) : Option Nat :=
  if cs ≠ [] ∧ cs.all Char.isDigit then
    if digitsVal cs < U32_MOD then some (digitsVal cs) else none
  else none

/-- Negative branch of Rust's `u32::from_str` (after a leading `-`): the
checked subtraction from `0` succeeds only when every digit is `0`, so only
representations of zero parse. -/
def parseDigitsNeg (cs : List Char) : Option Nat :=
  if cs ≠ [] ∧ cs.all Char.isDigit then
    if digitsVal cs = 0 then some 0 else none
  else none

/-- Rust's `str::parse::<u32>` as used on the fee string in
`validate_security`: an optional single leading `+` or `-` sign followed by
one or more ASCII decimal digits; a lone sign or an empty string fails;
values `≥ 2^32` overflow and fail; a `-` sign succeeds only on zero. -/
def parseU32 (s : String) : Option Nat :=
  match s.toList with
  | [] => none
  | c :: rest =>
    if c = '+' then parseDigitsPos rest
    else if c = '-' then parseDigitsNeg rest
    else parseDigitsPos (c :: rest)

/-- Spec-side notion of a fee string "denoting a non-negative integer":
a non-empty string of plain decimal digits, read in base 10 (no sign, no
width restriction). -/
def decimalValue? (s : String) : Option Nat :=
  if s.toList ≠ [] ∧ s.toList.all Char.isDigit then some (digitsVal s.toList)
  else none

/-- `OfflineTransactionParams` from `offline_signing.rs`. -/
structure OfflineTransactionParams where
  sequence : Nat
  fee : String
  last_ledger_sequence : Nat
  current_ledger_index : Nat
deriving DecidableEq, Repr

/-- The distinct failure messages raised by
`OfflineTransactionParams::validate_security` (each `anyhow::bail!` /
`.context` site gets one constructor, carrying the formatted data). -/
inductive ValidationError where
  | missingExpiration
  | expired (current expiration : Nat)
  | malformedFee
  | feeBelowFloor (fee : Nat)
deriving DecidableEq, Repr

/-- Fee checks of `validate_security` (lines 56-62 of `offline_signing.rs`):
parse the fee string as `u32`, failing with the malformed-fee error, then
compare against `MINIMUM_FEE_DROPS`. -/
def checkFee (p : OfflineTransactionParams) : Except ValidationError Unit :=
  match parseU32 p.fee with
  | none => .error .malformedFee
  | some fee_drops =>
    if fee_drops < MINIMUM_FEE_DROPS then .error (.feeBelowFloor fee_drops)
    else .ok ()

/-- `OfflineTransactionParams::validate_security`: reject a zero
`last_ledger_sequence`, then (when a current ledger is supplied) reject
`current >= last_ledger_sequence` as expired, then run the fee checks. -/
def validate_security (p : OfflineTransactionParams) (current_ledger : Option Nat) :
    Except ValidationError Unit :=
  if p.last_ledger_sequence = 0 then
    .error .missingExpiration
  else
    match current_ledger with
    | some current =>
      if p.last_ledger_sequence ≤ current then
        .error (.expired current p.last_ledger_sequence)
      else checkFee p
    | none => checkFee p

/-- Whether a validation outcome is the "expired" failure. -/
def isExpiredError : Except ValidationError Unit → Bool
  | .error (.expired _ _) => true
  | _ => false

/-- Rust's `as i32` cast applied to a `u32` value: values below `2^31` are
unchanged, larger ones wrap by `-2^32`. -/
def u32ToI32 (n : Nat) : Int :=
  if n < I31_BOUND then (n : Int) else (n : Int) - (U32_MOD : Int)

/-- Reduction of an integer into the `i32` range, the wrapping semantics of
`i32` subtraction. -/
def wrapI32 (x : Int) : Int :=
  (x + (I31_BOUND : Int)) % (U32_MOD : Int) - (I31_BOUND : Int)

/-- `OfflineTransactionParams::remaining_ledgers`:
`self.last_ledger_sequence as i32 - current_ledger as i32` with `i32`
semantics. -/
def remaining_ledgers (p : OfflineTransactionParams) (current_ledger : Nat) : Int :=
  wrapI32 (u32ToI32 p.last_ledger_sequence - u32ToI32 current_ledger)

/-- Failures of `gather_transaction_params`: a failed network query, or the
final security validation failing. -/
inductive GatherError where
  | networkError (msg : String)
  | securityValidation (e : ValidationError)
deriving DecidableEq, Repr

/-- `gather_transaction_params`, as a function of the results of its two
network queries (`get_latest_validated_ledger_sequence` and the account-info
query's `account_root.sequence`): build the params with
`last_ledger_sequence = current + TRANSACTION_EXPIRY_LEDGERS` (a `u32`
addition, hence reduced mod `2^32`) and `fee = MINIMUM_FEE_DROPS.to_string()`,
then validate them against the observed current ledger before returning. -/
def gather_transaction_params (latestLedger : Except String Nat)
    (accountSequence : Except String Nat) :
    Except GatherError OfflineTransactionParams :=
  match latestLedger with
  | .error e => .error (.networkError e)
  | .ok current_ledger_index =>
    match accountSequence with
    | .error e => .error (.networkError e)
    | .ok sequence =>
      let last_ledger_sequence := (current_ledger_index + TRANSACTION_EXPIRY_LEDGERS) % U32_MOD
      let fee := toString MINIMUM_FEE_DROPS
      let params : OfflineTransactionParams :=
        { sequence := sequence, fee := fee,
          last_ledger_sequence := last_ledger_sequence,
          current_ledger_index := current_ledger_index }
      match validate_security params (some current_ledger_index) with
      | .error e => .error (.securityValidation e)
      | .ok _ => .ok params

/-- The payment amount passed to `offline_sign_transaction`: either a native
`XRPAmount` (a drops string) or an `IssuedCurrencyAmount`
`{currency, issuer, value}` — the `xrpl::models::Amount` sum type. -/
inductive Amount where
  | xrpAmount (value : String)
  | issuedCurrencyAmount (currency issuer value : String)
deriving DecidableEq, Repr

/-- The signing identity derived from the secret by `Wallet::new`; the code
uses its `classic_address` as the payment source. -/
structure Wallet where
  classic_address : String
deriving DecidableEq, Repr

/-- The `Payment` transaction record, with the fields in the order of the
`Payment::new` call in `offline_sign_transaction` (common transaction fields
first, then the payment-specific fields).  Fields the call leaves `None` are
`Option`s. -/
structure Payment where
  account : String
  account_txn_id : Option String
  fee : Option String
  flags : Option Nat
  last_ledger_sequence : Option Nat
  memos : Option (List String)
  sequence : Option Nat
  signers : Option (List String)
  source_tag : Option Nat
  ticket_sequence : Option Nat
  amount : Amount
  destination : String
  destination_tag : Option Nat
  invoice_id : Option String
  paths : Option (List String)
  send_max : Option Amount
  deliver_min : Option Amount
deriving DecidableEq, Repr

/-- The `Payment::new` call of `offline_sign_transaction` (lines 148-166):
source is the wallet's classic address, fee / expiration / sequence come from
the offline params, amount and destination are the caller's, and every other
optional field is `None`. -/
def build_payment (wallet : Wallet) (to_address : String) (amount : Amount)
    (params : OfflineTransactionParams) : Payment :=
  { account := wallet.classic_address
    account_txn_id := none
    fee := some params.fee
    flags := none
    last_ledger_sequence := some params.last_ledger_sequence
    memos := none
    sequence := some params.sequence
    signers := none
    source_tag := none
    ticket_sequence := none
    amount := amount
    destination := to_address
    destination_tag := none
    invoice_id := none
    paths := none
    send_max := none
    deliver_min := none }

/-- Failures of `offline_sign_transaction`, one constructor for each failure
site (validation, wallet derivation, signing, encoding). -/
inductive SignError where
  | securityValidation (e : ValidationError)
  | walletError (msg : String)
  | signError (msg : String)
  | encodeError (msg : String)
deriving DecidableEq, Repr

/-- `offline_sign_transaction`, parametrised over its three external
collaborators from the `xrpl` crate: `walletNew` models `Wallet::new`
(derivation of the signing identity from the secret), `sign` models the
in-place signing `sign(&mut payment, &wallet, false)` as returning the
signed record, `encode` models the canonical binary-codec `encode`.  The
function takes no network handle and performs no network query: re-validate
the params with no current ledger, derive the wallet, build the payment
record, sign it, encode it. -/
def offline_sign_transaction
    (walletNew : String → Except String Wallet)
    (sign : Payment → Wallet → Except String Payment)
    (encode : Payment → Except String String)
    (user_secret : String) (to_address : String) (amount : Amount)
    (params : OfflineTransactionParams) : Except SignError String :=
  match validate_security params none with
  | .error e => .error (.securityValidation e)
  | .ok _ =>
    match walletNew user_secret with
    | .error e => .error (.walletError e)
    | .ok wallet =>
      let payment := build_payment wallet to_address amount params
      match sign payment wallet with
      | .error e => .error (.signError e)
      | .ok signed_payment =>
        match encode signed_payment with
        | .error e => .error (.encodeError e)
        | .ok signed_blob => .ok signed_blob

/-- The `Submit` result consumed by `submit_signed_blob`: the engine-result
classification string, and the outcome of the hash extraction
`tx_json.get("hash").and_then(|h| h.as_str())`. -/
structure SubmitResult where
  engine_result : String
  hash? : Option String
deriving DecidableEq, Repr

/-- The response variants of the submit request: the expected `Submit`
variant, or anything else (`None` or another `XRPLResult` variant), which
the code rejects as an unexpected response type. -/
inductive SubmitResponse where
  | submit (r : SubmitResult)
  | other
deriving DecidableEq, Repr

/-- Failures of `submit_signed_blob`, one constructor per failure site. -/
inductive SubmitError where
  | networkLedger (msg : String)
  | networkSubmit (msg : String)
  | transactionExpired (engine_result : String)
  | missingHash
  | unexpectedResponse
deriving DecidableEq, Repr

/-- Auxiliary scan for `containsSubstr`: does the pattern occur as a prefix
of some suffix of the haystack? -/
def isSubstrAux (pat : List Char) : List Char → Bool
  | [] => pat.isEmpty
  | c :: rest => pat.isPrefixOf (c :: rest) || isSubstrAux pat rest

/-- Rust's `str::contains(&str)`: substring containment. -/
def containsSubstr (hay pat : String) : Bool :=
  isSubstrAux pat.toList hay.toList

/-- `submit_signed_blob`, as a function of the results of its two network
interactions: the pre-submission query of the latest validated ledger, and
the submit request itself (a function of the blob).  The queried ledger
value is only logged; after a successful submit response of the `Submit`
variant, an engine result containing `"EXPIRED"` or `"LATE"` fails as
expired, otherwise the transaction hash is extracted (failing when absent). -/
def submit_signed_blob (latestLedger : Except String Nat)
    (submitRequest : String → Except String SubmitResponse)
    (signed_blob : String) : Except SubmitError String :=
  match latestLedger with
  | .error e => .error (.networkLedger e)
  | .ok _current_ledger =>
    match submitRequest signed_blob with
    | .error e => .error (.networkSubmit e)
    | .ok (.submit submit_result) =>
      if containsSubstr submit_result.engine_result "EXPIRED" ||
         containsSubstr submit_result.engine_result "LATE" then
        .error (.transactionExpired submit_result.engine_result)
      else
        match submit_result.hash? with
        | some tx_hash => .ok tx_hash
        | none => .error .missingHash
    | .ok .other => .error .unexpectedResponse

deriving instance DecidableEq for Except

/-! ### Helper lemmas about the fee parser and the validator -/

theorem parseDigitsPos_eq_some {cs : List Char} {v : Nat}
    (h : parseDigitsPos cs = some v) :
    cs ≠ [] ∧ cs.all Char.isDigit = true ∧ digitsVal cs = v ∧ v < U32_MOD := by
  unfold parseDigitsPos at h
  split at h
  · rename_i hc
    split at h
    · rename_i hlt
      obtain rfl : digitsVal cs = v := by exact (Option.some.injEq _ _).mp h
      exact ⟨hc.1, hc.2, rfl, hlt⟩
    · exact absurd h (by simp)
  · exact absurd h (by simp)

theorem parseDigitsNeg_eq_some {cs : List Char} {v : Nat}
    (h : parseDigitsNeg cs = some v) :
    cs ≠ [] ∧ cs.all Char.isDigit = true ∧ v = 0 := by
  unfold parseDigitsNeg at h
  split at h
  · rename_i hc
    split at h
    · exact ⟨hc.1, hc.2, by exact ((Option.some.injEq _ _).mp h).symm⟩
    · exact absurd h (by simp)
  · exact absurd h (by simp)

theorem digit_ne_plus {c : Char} (h : c.isDigit = true) : ¬(c = '+') := by
  intro hc; subst hc; exact absurd h (by decide)

theorem digit_ne_minus {c : Char} (h : c.isDigit = true) : ¬(c = '-') := by
  intro hc; subst hc; exact absurd h (by decide)

/-- A string of plain decimal digits parses as `u32` exactly when its value
fits in 32 bits, and then to its value. -/
theorem parseU32_of_decimal {s : String} {v : Nat}
    (h : decimalValue? s = some v) (hv : v < U32_MOD) : parseU32 s = some v := by
  unfold decimalValue? at h
  split at h
  · rename_i hc
    obtain ⟨hne, hall⟩ := hc
    obtain rfl : digitsVal s.toList = v := (Option.some.injEq _ _).mp h
    cases heq : s.toList with
    | nil => exact absurd heq hne
    | cons c rest =>
      rw [heq] at hall
      simp only [List.all_cons, Bool.and_eq_true] at hall
      simp only [parseU32, heq]
      rw [if_neg (digit_ne_plus hall.1), if_neg (digit_ne_minus hall.1)]
      unfold parseDigitsPos
      rw [if_pos ⟨by simp, by simp [List.all_cons, hall.1, hall.2]⟩,
        if_pos (by rw [← heq]; exact hv)]
  · exact absurd h (by simp)

/-- A string of plain decimal digits with value `≥ 2^32` overflows the `u32`
parse. -/
theorem parseU32_overflow {s : String} {v : Nat}
    (h : decimalValue? s = some v) (hv : U32_MOD ≤ v) : parseU32 s = none := by
  unfold decimalValue? at h
  split at h
  · rename_i hc
    obtain ⟨hne, hall⟩ := hc
    obtain rfl : digitsVal s.toList = v := (Option.some.injEq _ _).mp h
    cases heq : s.toList with
    | nil => exact absurd heq hne
    | cons c rest =>
      rw [heq] at hall
      simp only [List.all_cons, Bool.and_eq_true] at hall
      simp only [parseU32, heq]
      rw [if_neg (digit_ne_plus hall.1), if_neg (digit_ne_minus hall.1)]
      unfold parseDigitsPos
      rw [if_pos ⟨by simp, by simp [List.all_cons, hall.1, hall.2]⟩,
        if_neg (by rw [← heq]; omega)]
  · exact absurd h (by simp)

/-- Shape of any string accepted by the `u32` parse: an optional single
leading sign, then only ASCII digits, and a value below `2^32`. -/
theorem parseU32_eq_some_shape {s : String} {v : Nat} (h : parseU32 s = some v) :
    v < U32_MOD ∧ ∃ c rest, s.toList = c :: rest ∧ rest.all Char.isDigit = true ∧
      (c.isDigit = true ∨ c = '+' ∨ c = '-') := by
  cases heq : s.toList with
  | nil => simp only [parseU32, heq] at h; exact absurd h (by simp)
  | cons c rest =>
    simp only [parseU32, heq] at h
    by_cases hp : c = '+'
    · rw [if_pos hp] at h
      obtain ⟨hne, hall, hval, hlt⟩ := parseDigitsPos_eq_some h
      exact ⟨hlt, c, rest, rfl, hall, Or.inr (Or.inl hp)⟩
    · rw [if_neg hp] at h
      by_cases hm : c = '-'
      · rw [if_pos hm] at h
        obtain ⟨hne, hall, hv0⟩ := parseDigitsNeg_eq_some h
        exact ⟨by subst hv0; decide, c, rest, rfl, hall, Or.inr (Or.inr hm)⟩
      · rw [if_neg hm] at h
        obtain ⟨hne, hall, hval, hlt⟩ := parseDigitsPos_eq_some h
        simp only [List.all_cons, Bool.and_eq_true] at hall
        exact ⟨hlt, c, rest, rfl, hall.2, Or.inl hall.1⟩

theorem checkFee_ok_iff (p : OfflineTransactionParams) :
    checkFee p = .ok () ↔
      ∃ v, parseU32 p.fee = some v ∧ MINIMUM_FEE_DROPS ≤ v := by
  unfold checkFee
  cases h : parseU32 p.fee with
  | none => simp
  | some v =>
    by_cases hv : v < MINIMUM_FEE_DROPS
    · simp only [if_pos hv]
      constructor
      · intro habs; exact absurd habs (by simp)
      · rintro ⟨w, hw, hle⟩
        obtain rfl : v = w := (Option.some.injEq _ _).mp hw
        omega
    · simp only [if_neg hv]
      exact ⟨fun _ => ⟨v, rfl, by omega⟩, fun _ => by trivial⟩

theorem checkFee_malformed_iff (p : OfflineTransactionParams) :
    checkFee p = .error .malformedFee ↔ parseU32 p.fee = none := by
  unfold checkFee
  cases h : parseU32 p.fee with
  | none => simp
  | some v =>
    by_cases hv : v < MINIMUM_FEE_DROPS <;>
      simp [hv]

theorem checkFee_ne_expired (p : OfflineTransactionParams) (a b : Nat) :
    checkFee p ≠ .error (.expired a b) := by
  unfold checkFee
  cases h : parseU32 p.fee with
  | none => simp
  | some v =>
    by_cases hv : v < MINIMUM_FEE_DROPS <;> simp [hv]

/-- Full characterisation of when `validate_security` succeeds. -/
theorem validate_security_ok_iff (p : OfflineTransactionParams) (c : Option Nat) :
    validate_security p c = .ok () ↔
      (p.last_ledger_sequence ≠ 0 ∧
        (∀ x, c = some x → x < p.last_ledger_sequence) ∧
        ∃ v, parseU32 p.fee = some v ∧ MINIMUM_FEE_DROPS ≤ v) := by
  unfold validate_security
  by_cases h0 : p.last_ledger_sequence = 0
  · simp [h0]
  · cases c with
    | none => simp [h0, checkFee_ok_iff]
    | some x =>
      by_cases hx : p.last_ledger_sequence ≤ x
      · rw [if_neg h0]
        simp only [if_pos hx]
        constructor
        · intro habs; exact absurd habs (by simp)
        · rintro ⟨-, hlt, -⟩
          exact absurd (hlt x rfl) (by omega)
      · rw [if_neg h0]
        simp only [if_neg hx, checkFee_ok_iff]
        constructor
        · intro hfee
          refine ⟨h0, ?_, hfee⟩
          rintro y hy
          obtain rfl : x = y := (Option.some.injEq _ _).mp hy
          omega
        · rintro ⟨-, -, hfee⟩; exact hfee

/-- With no current ledger supplied, `validate_security` never raises the
expired error. -/
theorem validate_none_ne_expired (p : OfflineTransactionParams) (a b : Nat) :
    validate_security p none ≠ .error (.expired a b) := by
  unfold validate_security
  by_cases h0 : p.last_ledger_sequence = 0
  · simp [h0]
  · simp only [if_neg h0]
    exact checkFee_ne_expired p a b

/-- With no current ledger supplied, the exact failure condition of
`validate_security`. -/
theorem validate_none_fails_iff (p : OfflineTransactionParams) :
    validate_security p none ≠ .ok () ↔
      (p.last_ledger_sequence = 0 ∨ parseU32 p.fee = none ∨
        ∃ v, parseU32 p.fee = some v ∧ v < MINIMUM_FEE_DROPS) := by
  rw [Ne, validate_security_ok_iff]
  cases h : parseU32 p.fee with
  | none => simp [h]
  | some v =>
    simp only [Option.some.injEq, reduceCtorEq, false_or]
    constructor
    · intro himp
      by_cases h0 : p.last_ledger_sequence = 0
      · exact Or.inl h0
      · refine Or.inr ⟨v, rfl, ?_⟩
        by_contra hge
        exact himp ⟨h0, fun x hx => hx.elim, ⟨v, rfl, by omega⟩⟩
    · rintro (h0 | ⟨w, hw, hlt⟩) ⟨hne, -, u, hu, hge⟩
      · exact hne h0
      · omega

theorem toString_min_fee : toString MINIMUM_FEE_DROPS = "12" := rfl

/-! ### Claim theorems -/

/-- C1 counterexample: the fee string "4294967296" denotes the non-negative
integer `2^32 ≥ 12` and is combined with a non-zero, non-expired expiration
window, yet `validate_security` fails (with the malformed-fee error, because
the `u32` parse overflows) — refuting the claim's "for every fee string
denoting an integer ≥ 12, validate succeeds". -/
theorem c1_counterexample :
    decimalValue? "4294967296" = some 4294967296 ∧
    MINIMUM_FEE_DROPS ≤ 4294967296 ∧
    validate_security ⟨0, "4294967296", 1000, 0⟩ none = .error .malformedFee :=
  ⟨rfl, by decide, rfl⟩

/-- C1 (amended): `validate_security p c` succeeds iff
`p.last_ledger_sequence` is non-zero, `c` (when supplied) is strictly below
`p.last_ledger_sequence`, and `p.fee` parses as a `u32` whose value is at
least `MINIMUM_FEE_DROPS`; in particular, for every fee string of decimal
digits denoting an integer that is `≥ 12` **and representable in 32 bits**,
combined with a non-zero, non-expired expiration window, validate
succeeds. -/
theorem c1_validate_ok_iff (p : OfflineTransactionParams) (c : Option Nat) :
    (validate_security p c = .ok () ↔
      (p.last_ledger_sequence ≠ 0 ∧
        (∀ x, c = some x → x < p.last_ledger_sequence) ∧
        ∃ v, parseU32 p.fee = some v ∧ MINIMUM_FEE_DROPS ≤ v)) ∧
    (∀ v, decimalValue? p.fee = some v → v < U32_MOD → MINIMUM_FEE_DROPS ≤ v →
      p.last_ledger_sequence ≠ 0 →
      (∀ x, c = some x → x < p.last_ledger_sequence) →
      validate_security p c = .ok ()) := by
  refine ⟨validate_security_ok_iff p c, ?_⟩
  intro v hdec hlt hge h0 hc
  exact (validate_security_ok_iff p c).mpr
    ⟨h0, hc, v, parseU32_of_decimal hdec hlt, hge⟩

/-- C1 witness: the amended theorem applied at the gathered parameters of
end-to-end scenario A. -/
theorem c1_witness :
    validate_security ⟨5, "12", 1010, 1000⟩ (some 1000) = .ok () :=
  (c1_validate_ok_iff ⟨5, "12", 1010, 1000⟩ (some 1000)).2 12
    (by decide) (by decide) (by decide) (by decide)
    (by intro x hx; simp at hx; subst hx; decide)

/-- C2 counterexample: with `last_ledger_sequence = 0` and a supplied
current ledger `5 ≥ 0`, `validate_security` fails, but with the
missing-expiration error, not the expired error — refuting the claim's
unconditional "fails with the expired error". -/
theorem c2_counterexample :
    validate_security ⟨0, "12", 0, 0⟩ (some 5) = .error .missingExpiration ∧
    isExpiredError (validate_security ⟨0, "12", 0, 0⟩ (some 5)) = false :=
  ⟨rfl, rfl⟩

/-- C2 (amended): for every params `p` with non-zero
`last_ledger_sequence` and every supplied current ledger
`current ≥ p.last_ledger_sequence`, `validate_security p (some current)`
fails with the expired error (when `last_ledger_sequence` is zero it fails
with the missing-expiration error instead). -/
theorem c2_expired_of_nonzero (p : OfflineTransactionParams) (current : Nat)
    (h0 : p.last_ledger_sequence ≠ 0)
    (hc : p.last_ledger_sequence ≤ current) :
    validate_security p (some current) =
      .error (.expired current p.last_ledger_sequence) := by
  simp only [validate_security, if_neg h0, if_pos hc]

/-- C2 witness: scenario-A parameters submitted at ledger 1011. -/
theorem c2_witness :
    validate_security ⟨5, "12", 1010, 1000⟩ (some 1011) =
      .error (.expired 1011 1010) :=
  c2_expired_of_nonzero ⟨5, "12", 1010, 1000⟩ 1011 (by decide) (by decide)

/-- C7 counterexample: for the unsigned 32-bit value
`last_ledger_sequence = 2^31` and `current = 0`, the code's `as i32` cast
wraps, so `remaining_ledgers` returns `-2^31` instead of the exact
mathematical difference `2^31` — refuting the claim for "every unsigned
32-bit current ledger value". -/
theorem c7_counterexample :
    remaining_ledgers ⟨0, "12", 2147483648, 0⟩ 0 = -2147483648 ∧
    ((2147483648 : Nat) : Int) - ((0 : Nat) : Int) = 2147483648 := by
  constructor
  · decide
  · decide

/-- C7 (amended): whenever `last_ledger_sequence` and the current ledger
value are both below `2^31` (so that neither `as i32` cast wraps),
`remaining_ledgers(current)` equals the exact mathematical integer
difference `last_ledger_sequence - current`, including negative results
when `current` exceeds `last_ledger_sequence`. -/
theorem c7_remaining_ledgers_exact (p : OfflineTransactionParams) (current : Nat)
    (h1 : p.last_ledger_sequence < I31_BOUND) (h2 : current < I31_BOUND) :
    remaining_ledgers p current =
      (p.last_ledger_sequence : Int) - (current : Int) := by
  unfold remaining_ledgers u32ToI32 wrapI32
  rw [if_pos h1, if_pos h2]
  simp only [I31_BOUND, U32_MOD] at h1 h2 ⊢
  omega

/-- C7 witness: an already-expired case with a negative exact difference. -/
theorem c7_witness :
    remaining_ledgers ⟨5, "12", 1010, 1000⟩ 1011 =
      ((1010 : Nat) : Int) - ((1011 : Nat) : Int) :=
  c7_remaining_ledgers_exact ⟨5, "12", 1010, 1000⟩ 1011 (by decide) (by decide)

/-- C9 counterexample: the fee string "+12" contains a sign and denotes the
integer `12 ≥ MINIMUM_FEE_DROPS`, yet it parses (Rust's `u32` parser accepts
one leading `+`) and `validate_security` accepts it — refuting the claim
that every fee containing a sign is rejected with the malformed-fee
error. -/
theorem c9_counterexample :
    parseU32 "+12" = some 12 ∧
    validate_security ⟨0, "+12", 1000, 0⟩ none = .ok () :=
  ⟨rfl, rfl⟩

/-- C9 (amended): `validate_security` parses the fee string into an
unsigned 32-bit integer: every all-digits fee whose numeric value is
`≥ 2^32` fails the parse; every accepted fee has value `< 2^32` and
consists of decimal digits after an optional single leading `+` or `-`
sign (a leading `+` being accepted, contrary to the original claim); and
whenever the parse fails while the expiration checks pass, validation
rejects the fee with the malformed-fee error. -/
theorem c9_fee_u32_parse :
    (∀ s v, decimalValue? s = some v → U32_MOD ≤ v → parseU32 s = none) ∧
    (∀ s v, parseU32 s = some v → v < U32_MOD ∧
      ∃ c rest, s.toList = c :: rest ∧ rest.all Char.isDigit = true ∧
        (c.isDigit = true ∨ c = '+' ∨ c = '-')) ∧
    (∀ p c0, p.last_ledger_sequence ≠ 0 →
      (∀ x, c0 = some x → x < p.last_ledger_sequence) →
      parseU32 p.fee = none →
      validate_security p c0 = .error .malformedFee) := by
  refine ⟨fun s v h hv => parseU32_overflow h hv,
    fun s v h => parseU32_eq_some_shape h, ?_⟩
  intro p c0 h0 hc hnone
  cases c0 with
  | none =>
    simp only [validate_security, if_neg h0]
    exact (checkFee_malformed_iff p).mpr hnone
  | some x =>
    have hx : ¬ p.last_ledger_sequence ≤ x := by
      have := hc x rfl; omega
    simp only [validate_security, if_neg h0, if_neg hx]
    exact (checkFee_malformed_iff p).mpr hnone

/-- C9 witness: each conjunct of the amended theorem applied at a concrete
input: the overflowing fee "4294967296", the accepted fee "+12", and a
validation run on the non-numeric fee "12drops". -/
theorem c9_witness :
    parseU32 "4294967296" = none ∧
    ((12 : Nat) < U32_MOD ∧
      ∃ c rest, ("+12").toList = c :: rest ∧ rest.all Char.isDigit = true ∧
        (c.isDigit = true ∨ c = '+' ∨ c = '-')) ∧
    validate_security ⟨0, "12drops", 1000, 0⟩ none = .error .malformedFee := by
  refine ⟨?_, ?_, ?_⟩
  · exact c9_fee_u32_parse.1 "4294967296" 4294967296 (by decide) (by decide)
  · exact c9_fee_u32_parse.2.1 "+12" 12 (by decide)
  · exact c9_fee_u32_parse.2.2 ⟨0, "12drops", 1000, 0⟩ none (by decide)
      (fun x hx => nomatch hx) (by decide)

/-- C3: whenever `gather_transaction_params` returns Ok, the two network
queries succeeded and the returned params have the sequence from the
account-info query, the fixed minimum fee "12",
`last_ledger_sequence = current_ledger_index + TRANSACTION_EXPIRY_LEDGERS`
exactly (no wrap can survive the final validation), and they pass
validation against the observed current ledger. -/
theorem c3_gather_params_shape (ll as : Except String Nat)
    (p : OfflineTransactionParams)
    (h : gather_transaction_params ll as = .ok p) :
    ∃ cur seq, ll = .ok cur ∧ as = .ok seq ∧
      p = ⟨seq, "12", cur + TRANSACTION_EXPIRY_LEDGERS, cur⟩ ∧
      validate_security p (some cur) = .ok () := by
  cases ll with
  | error e => exact absurd h (by simp [gather_transaction_params])
  | ok cur =>
    cases as with
    | error e => exact absurd h (by simp [gather_transaction_params])
    | ok seq =>
      refine ⟨cur, seq, rfl, rfl, ?_⟩
      simp only [gather_transaction_params] at h
      split at h
      · exact absurd h (by simp)
      · rename_i u hv
        obtain rfl :
            (⟨seq, toString MINIMUM_FEE_DROPS,
              (cur + TRANSACTION_EXPIRY_LEDGERS) % U32_MOD, cur⟩ :
              OfflineTransactionParams) = p := by
          simpa using h
        have hcur : cur < (cur + TRANSACTION_EXPIRY_LEDGERS) % U32_MOD :=
          ((validate_security_ok_iff _ (some cur)).mp hv).2.1 cur rfl
        have hmod : (cur + TRANSACTION_EXPIRY_LEDGERS) % U32_MOD =
            cur + TRANSACTION_EXPIRY_LEDGERS := by
          simp only [TRANSACTION_EXPIRY_LEDGERS, U32_MOD] at hcur ⊢
          omega
        refine ⟨?_, hv⟩
        rw [toString_min_fee, hmod]

/-- C3 witness: end-to-end scenario A — account sequence 5 at validated
ledger 1000 yields `{sequence 5, fee "12", last_ledger_sequence 1010,
current_ledger_index 1000}`, and the params validate against ledger
1000. -/
theorem c3_witness :
    ∃ cur seq, (Except.ok 1000 : Except String Nat) = .ok cur ∧
      (Except.ok 5 : Except String Nat) = .ok seq ∧
      (⟨5, "12", 1010, 1000⟩ : OfflineTransactionParams) =
        ⟨seq, "12", cur + TRANSACTION_EXPIRY_LEDGERS, cur⟩ ∧
      validate_security ⟨5, "12", 1010, 1000⟩ (some cur) = .ok () :=
  c3_gather_params_shape (.ok 1000) (.ok 5) ⟨5, "12", 1010, 1000⟩ (by rfl)

/-- A concrete wallet-derivation collaborator used to instantiate the
parametrised signer in witnesses. -/
def walletNewStub : String → Except String Wallet :=
  fun _ => .ok ⟨"rSourceAddress"⟩

/-- A concrete signing collaborator (returns the record unchanged) used to
instantiate the parametrised signer in witnesses. -/
def signStub : Payment → Wallet → Except String Payment :=
  fun pay _ => .ok pay

/-- A concrete encoding collaborator used to instantiate the parametrised
signer in witnesses. -/
def encodeStub : Payment → Except String String :=
  fun _ => .ok "DEADBEEF"

/-- C4: whenever `offline_sign_transaction` succeeds, the wallet was
derived from the secret, and the record handed to the signing and encoding
collaborators is exactly `build_payment`: source = the derived classic
address, the given destination and amount, fee / sequence / expiration from
the params, and every other optional transaction field unset. -/
theorem c4_signed_record_fields
    (walletNew : String → Except String Wallet)
    (sign : Payment → Wallet → Except String Payment)
    (encode : Payment → Except String String)
    (user_secret to_address : String) (amount : Amount)
    (params : OfflineTransactionParams) (blob : String)
    (h : offline_sign_transaction walletNew sign encode
      user_secret to_address amount params = .ok blob) :
    ∃ wallet, walletNew user_secret = .ok wallet ∧
      (∃ signed, sign (build_payment wallet to_address amount params) wallet = .ok signed ∧
        encode signed = .ok blob) ∧
      (build_payment wallet to_address amount params).account = wallet.classic_address ∧
      (build_payment wallet to_address amount params).destination = to_address ∧
      (build_payment wallet to_address amount params).amount = amount ∧
      (build_payment wallet to_address amount params).fee = some params.fee ∧
      (build_payment wallet to_address amount params).sequence = some params.sequence ∧
      (build_payment wallet to_address amount params).last_ledger_sequence =
        some params.last_ledger_sequence ∧
      (build_payment wallet to_address amount params).account_txn_id = none ∧
      (build_payment wallet to_address amount params).flags = none ∧
      (build_payment wallet to_address amount params).memos = none ∧
      (build_payment wallet to_address amount params).signers = none ∧
      (build_payment wallet to_address amount params).source_tag = none ∧
      (build_payment wallet to_address amount params).ticket_sequence = none ∧
      (build_payment wallet to_address amount params).destination_tag = none ∧
      (build_payment wallet to_address amount params).invoice_id = none ∧
      (build_payment wallet to_address amount params).paths = none ∧
      (build_payment wallet to_address amount params).send_max = none ∧
      (build_payment wallet to_address amount params).deliver_min = none := by
  simp only [offline_sign_transaction] at h
  split at h
  · exact absurd h (by simp)
  · split at h
    · exact absurd h (by simp)
    · rename_i wallet hw
      split at h
      · exact absurd h (by simp)
      · rename_i signed hs
        split at h
        · exact absurd h (by simp)
        · rename_i b he
          obtain rfl : b = blob := by simpa using h
          exact ⟨wallet, hw, ⟨signed, hs, he⟩, rfl, rfl, rfl, rfl, rfl, rfl,
            rfl, rfl, rfl, rfl, rfl, rfl, rfl, rfl, rfl, rfl, rfl⟩

/-- C4 witness: scenario B — an XRP payment of 100 drops with scenario-A
params; the record handed to the collaborators carries `Amount "100"`,
`Sequence 5`, `LastLedgerSequence 1010`, and no other optional fields. -/
theorem c4_witness :
    ∃ wallet, walletNewStub "sEdSecret" = .ok wallet ∧
      (∃ signed, signStub (build_payment wallet "rDest" (.xrpAmount "100")
          ⟨5, "12", 1010, 1000⟩) wallet = .ok signed ∧
        encodeStub signed = .ok "DEADBEEF") ∧
      (build_payment wallet "rDest" (.xrpAmount "100") ⟨5, "12", 1010, 1000⟩).account =
        wallet.classic_address ∧
      (build_payment wallet "rDest" (.xrpAmount "100") ⟨5, "12", 1010, 1000⟩).destination =
        "rDest" ∧
      (build_payment wallet "rDest" (.xrpAmount "100") ⟨5, "12", 1010, 1000⟩).amount =
        .xrpAmount "100" ∧
      (build_payment wallet "rDest" (.xrpAmount "100") ⟨5, "12", 1010, 1000⟩).fee =
        some (⟨5, "12", 1010, 1000⟩ : OfflineTransactionParams).fee ∧
      (build_payment wallet "rDest" (.xrpAmount "100") ⟨5, "12", 1010, 1000⟩).sequence =
        some (⟨5, "12", 1010, 1000⟩ : OfflineTransactionParams).sequence ∧
      (build_payment wallet "rDest" (.xrpAmount "100") ⟨5, "12", 1010, 1000⟩).last_ledger_sequence =
        some (⟨5, "12", 1010, 1000⟩ : OfflineTransactionParams).last_ledger_sequence ∧
      (build_payment wallet "rDest" (.xrpAmount "100") ⟨5, "12", 1010, 1000⟩).account_txn_id = none ∧
      (build_payment wallet "rDest" (.xrpAmount "100") ⟨5, "12", 1010, 1000⟩).flags = none ∧
      (build_payment wallet "rDest" (.xrpAmount "100") ⟨5, "12", 1010, 1000⟩).memos = none ∧
      (build_payment wallet "rDest" (.xrpAmount "100") ⟨5, "12", 1010, 1000⟩).signers = none ∧
      (build_payment wallet "rDest" (.xrpAmount "100") ⟨5, "12", 1010, 1000⟩).source_tag = none ∧
      (build_payment wallet "rDest" (.xrpAmount "100") ⟨5, "12", 1010, 1000⟩).ticket_sequence = none ∧
      (build_payment wallet "rDest" (.xrpAmount "100") ⟨5, "12", 1010, 1000⟩).destination_tag = none ∧
      (build_payment wallet "rDest" (.xrpAmount "100") ⟨5, "12", 1010, 1000⟩).invoice_id = none ∧
      (build_payment wallet "rDest" (.xrpAmount "100") ⟨5, "12", 1010, 1000⟩).paths = none ∧
      (build_payment wallet "rDest" (.xrpAmount "100") ⟨5, "12", 1010, 1000⟩).send_max = none ∧
      (build_payment wallet "rDest" (.xrpAmount "100") ⟨5, "12", 1010, 1000⟩).deliver_min = none :=
  c4_signed_record_fields walletNewStub signStub encodeStub
    "sEdSecret" "rDest" (.xrpAmount "100") ⟨5, "12", 1010, 1000⟩ "DEADBEEF" (by rfl)

/-- C5: `offline_sign_transaction` re-runs the validator with no current
ledger before any collaborator is consulted: whenever
`validate_security params none` fails, the call returns that validation
error for every possible wallet-derivation, signing and encoding
collaborator (so no signed blob is produced and no key is derived); the
validator fails with no current ledger exactly when the expiration is
zero, the fee fails to parse, or the parsed fee is below the floor; and
the expired error can never arise at this step. -/
theorem c5_revalidate_before_signing
    (walletNew : String → Except String Wallet)
    (sign : Payment → Wallet → Except String Payment)
    (encode : Payment → Except String String)
    (user_secret to_address : String) (amount : Amount)
    (params : OfflineTransactionParams) :
    (∀ e, validate_security params none = .error e →
      offline_sign_transaction walletNew sign encode
        user_secret to_address amount params = .error (.securityValidation e)) ∧
    (validate_security params none ≠ .ok () ↔
      (params.last_ledger_sequence = 0 ∨ parseU32 params.fee = none ∨
        ∃ v, parseU32 params.fee = some v ∧ v < MINIMUM_FEE_DROPS)) ∧
    (∀ a b, validate_security params none ≠ .error (.expired a b)) := by
  refine ⟨?_, validate_none_fails_iff params, validate_none_ne_expired params⟩
  intro e he
  simp only [offline_sign_transaction, he]

/-- C5 witness: a fee that fails to parse makes the signer fail with the
malformed-fee validation error, for the concrete stub collaborators. -/
theorem c5_witness :
    offline_sign_transaction walletNewStub signStub encodeStub
      "sEdSecret" "rDest" (.xrpAmount "100") ⟨5, "", 1010, 1000⟩ =
      .error (.securityValidation .malformedFee) :=
  (c5_revalidate_before_signing walletNewStub signStub encodeStub
    "sEdSecret" "rDest" (.xrpAmount "100") ⟨5, "", 1010, 1000⟩).1
    .malformedFee (by rfl)

/-- C6: whenever the submit request succeeds with a `Submit` result whose
engine-result string contains the marker "EXPIRED" or the marker "LATE",
`submit_signed_blob` fails with the transaction-expired error (even though
the network call itself returned success), instead of returning a
transaction hash. -/
theorem c6_expired_marker_check
    (ledger_value : Nat)
    (submitRequest : String → Except String SubmitResponse)
    (signed_blob : String) (r : SubmitResult)
    (hresp : submitRequest signed_blob = .ok (.submit r))
    (hmark : (containsSubstr r.engine_result "EXPIRED" ||
      containsSubstr r.engine_result "LATE") = true) :
    submit_signed_blob (.ok ledger_value) submitRequest signed_blob =
      .error (.transactionExpired r.engine_result) := by
  simp only [submit_signed_blob, hresp, hmark, if_true]

/-- A concrete submit collaborator whose engine result carries the expired
marker while still reporting a transaction hash. -/
def submitStubExpired : String → Except String SubmitResponse :=
  fun _ => .ok (.submit ⟨"tefEXPIRED", some "ABC123"⟩)

/-- C6 witness: scenario C — submitting at ledger 1011 past expiration, the
network nominally accepts but the engine result "tefEXPIRED" makes the
submitter fail as expired. -/
theorem c6_witness :
    submit_signed_blob (.ok 1011) submitStubExpired "DEADBEEF" =
      .error (.transactionExpired "tefEXPIRED") :=
  c6_expired_marker_check 1011 submitStubExpired "DEADBEEF"
    ⟨"tefEXPIRED", some "ABC123"⟩ (by rfl) (by decide)

/-- C8: `offline_sign_transaction` takes no network handle and its outcome
is a function of its four arguments alone, together with the behaviour of
the wallet / signing / encoding collaborators at exactly those arguments:
two runs whose collaborators agree on the derived wallet, on the signing of
each record and on the encoding of each record produce identical results,
and both construct the identical canonical record
`build_payment wallet to_address amount params` for the signer (signature
verification itself is the external cryptographic collaborator's
contract). -/
theorem c8_sign_function_of_args
    (walletNew₁ walletNew₂ : String → Except String Wallet)
    (sign₁ sign₂ : Payment → Wallet → Except String Payment)
    (encode₁ encode₂ : Payment → Except String String)
    (user_secret to_address : String) (amount : Amount)
    (params : OfflineTransactionParams)
    (hw : walletNew₁ user_secret = walletNew₂ user_secret)
    (hs : ∀ pay w, sign₁ pay w = sign₂ pay w)
    (he : ∀ pay, encode₁ pay = encode₂ pay) :
    offline_sign_transaction walletNew₁ sign₁ encode₁
        user_secret to_address amount params =
      offline_sign_transaction walletNew₂ sign₂ encode₂
        user_secret to_address amount params := by
  simp only [offline_sign_transaction]
  cases validate_security params none with
  | error e => rfl
  | ok u =>
    dsimp only
    rw [hw]
    cases walletNew₂ user_secret with
    | error e => rfl
    | ok wallet =>
      dsimp only
      rw [hs]
      cases sign₂ (build_payment wallet to_address amount params) wallet with
      | error e => rfl
      | ok sp =>
        dsimp only
        rw [he]

/-- C8 witness: two identical signing calls with the stub collaborators
produce identical outcomes. -/
theorem c8_witness :
    offline_sign_transaction walletNewStub signStub encodeStub
        "sEdSecret" "rDest" (.xrpAmount "100") ⟨5, "12", 1010, 1000⟩ =
      offline_sign_transaction walletNewStub signStub encodeStub
        "sEdSecret" "rDest" (.xrpAmount "100") ⟨5, "12", 1010, 1000⟩ :=
  c8_sign_function_of_args walletNewStub walletNewStub signStub signStub
    encodeStub encodeStub "sEdSecret" "rDest" (.xrpAmount "100")
    ⟨5, "12", 1010, 1000⟩ rfl (fun _ _ => rfl) (fun _ => rfl)

/-- C10: `submit_signed_blob` dispatches to the network only after the
pre-submission ledger query succeeds: when that query fails the result is
the network error, identically for every possible submit collaborator (so
no submission attempt is consulted); and when the query succeeds its value
is never compared against anything — the outcome is the same for any two
queried ledger values. -/
theorem c10_submit_gated_on_ledger_query (e : String)
    (submitRequest₁ submitRequest₂ : String → Except String SubmitResponse)
    (signed_blob : String) (v₁ v₂ : Nat)
    (submitRequest : String → Except String SubmitResponse) (blob : String) :
    submit_signed_blob (.error e) submitRequest₁ signed_blob =
        .error (.networkLedger e) ∧
    submit_signed_blob (.error e) submitRequest₁ signed_blob =
        submit_signed_blob (.error e) submitRequest₂ signed_blob ∧
    submit_signed_blob (.ok v₁) submitRequest blob =
        submit_signed_blob (.ok v₂) submitRequest blob :=
  ⟨rfl, rfl, rfl⟩
